import Mathlib

/-!
# Verification of the `vanilla` request core

A shallow embedding of the request-handling core of `vanilla.py`
(whisperaven/vanilla): the regex router (`RequestRouter`, `RequestRule`),
the HTTP value types (`HttpRequest`, `HttpResponse`, `HttpError`) and the
engine request lifecycle (`Engine._request_handler`, `Engine._make_output`),
together with theorems settling the frozen claims about that code.

Modelling conventions:
* Python strings are Lean `String`s; `str.upper`, `str.strip`,
  `str.replace` and `int(...)` are re-implemented over `List Char` so that
  every definition evaluates by kernel reduction.
* Python object identity on strings (the `is` operator) is modelled by
  `PyStr`, a string value tagged with whether it is an interned module
  literal: in CPython all string literals of a module are interned (equal
  literals are one object), while `str.upper()` always allocates a fresh
  object, so a freshly computed string is never `is`-identical to a literal.
* Route patterns are restricted to regex patterns without metacharacters
  (`RePattern.lit`), for which CPython's `re.match(p, url)` succeeds exactly
  when `p` is a prefix of `url`.
* Handlers, hooks and error pages are modelled by small behaviour
  descriptions (`HandlerSpec`, `HookSpec`, `ErrPageSpec`) interpreted over
  the live response state, mirroring what the cited claims exercise:
  normal return, abort, `HttpError`, and arbitrary other failure.
-/

namespace Vanilla

/-! ## Python string primitives -/

/-- `str.upper()` (ASCII) as a total, kernel-reducible function. -/
def pyUpper (s : String) : String := String.mk (s.toList.map Char.toUpper)

/-- Does the first list occur as an initial segment of the second? -/
def listStartsWith : List Char → List Char → Bool
  | [], _ => true
  | _ :: _, [] => false
  | a :: as, b :: bs => a == b && listStartsWith as bs

/-- `p` is an initial segment of `s` (what `re.match` checks for a
metacharacter-free pattern `p`). -/
def pyStartsWith (p s : String) : Bool := listStartsWith p.toList s.toList

/-- `str.replace(a, b)` for one-character patterns. -/
def pyReplaceChar (s : String) (a b : Char) : String :=
  String.mk (s.toList.map (fun c => if c = a then b else c))

/-- `str.strip(c)`: drop leading and trailing occurrences of `c`. -/
def pyStrip (s : String) (c : Char) : String :=
  String.mk (((s.toList.dropWhile (· = c)).reverse.dropWhile (· = c)).reverse)

/-- `int(s)` for a nonnegative decimal literal; `none` models the
`ValueError` that `int` raises on any other input.  (Signs and surrounding
whitespace are outside the scope of the claims.) -/
def pyToNat? (s : String) : Option Nat :=
  if s.toList ≠ [] ∧ s.toList.all Char.isDigit then
    some (s.toList.foldl (fun n c => n * 10 + (c.toNat - '0'.toNat)) 0)
  else none

/-- A Python string value together with the fact of whether it is an
interned module string literal.  CPython interns the string literals of a
module, so two equal literals are one object and `lit is lit'` is content
equality; `str.upper()` always allocates a fresh, non-interned object. -/
structure PyStr where
  val : String
  interned : Bool
deriving DecidableEq, Repr

/-- A module string literal (interned). -/
def PyStr.lit (s : String) : PyStr := ⟨s, true⟩

/-- A freshly allocated string (e.g. the result of `str.upper()`). -/
def PyStr.fresh (s : String) : PyStr := ⟨s, false⟩

/-- The Python expression `s is 'literal'` where the right-hand side is a
module string literal: object identity holds exactly when `s` is itself an
interned literal of the same content. -/
def pyIs (s : PyStr) (l : String) : Bool := s.interned && s.val == l

/-! ## Route patterns

`RequestRule.__init__` compiles the caller-supplied regex with
`re.compile(regex)` and `RequestRouter.match` tests it with
`rule.regex.match(url)`.  The embedding covers regex patterns without
metacharacters, for which `re.match(p, url)` succeeds iff `p` is an initial
segment of `url` — `re.match` anchors at the start of the string only,
never at the end. -/

inductive RePattern where
  | lit (p : String)
deriving DecidableEq, Repr

/-- `pattern.match(url)` viewed as a Boolean (the source only tests the
match object for truthiness). -/
def RePattern.pymatch : RePattern → String → Bool
  | .lit p, url => pyStartsWith p url

/-! ## Handler / hook / error-page behaviours -/

/-- Behaviour of a route handler, as exercised by the claims: return a
string buffer, raise `HttpAbort(buf)`, raise `HttpError(status, body)`, or
raise any other exception. -/
inductive HandlerSpec where
  | ret (buf : String)
  | abortWith (buf : String)
  | raiseHttp (status : Nat) (body : String)
  | raiseExc
deriving DecidableEq, Repr

/-- Behaviour of a pre/post-request hook acting on the live response. -/
inductive HookSpec where
  | addHeader (name value : String)
  | setHeader (name value : String)
  | setStatus (status : Nat)
  | noop
  | raiseExc
deriving DecidableEq, Repr

/-- Behaviour of a registered error-page handler: produce a body string or
raise an exception. -/
inductive ErrPageSpec where
  | ret (buf : String)
  | raiseExc
deriving DecidableEq, Repr

/-- Observable invocation events of one request, recorded in order. -/
inductive Event where
  | preHook
  | handlerCall
  | postHook
  | errPage
deriving DecidableEq, Repr

/-! ## Request rules and the router -/

/-- `RequestRule`: a compiled pattern plus its handler.  (Parameter
extraction via `getfullargspec`/`update_args` is not needed by any claim:
the modelled handlers consult only the context.) -/
structure RequestRule where
  regex : RePattern
  handler : HandlerSpec
deriving DecidableEq, Repr

/-- `RequestRouter.__init__` creates `method_table` as a dict with exactly
the keys of `_HTTP_METHOD = ["GET", "POST", "PUT", "DELETE", "TRACE",
"CONNECT", "OPTION", "ANY"]` (note: no `"HEAD"` key, and `OPTION` rather
than `OPTIONS`), each mapped to a list of rules; `insert` only appends to
these lists and raises `RouterError` for any other method name, so every
reachable router has exactly these eight tables. -/
structure RequestRouter where
  rulesGET : List RequestRule := []
  rulesPOST : List RequestRule := []
  rulesPUT : List RequestRule := []
  rulesDELETE : List RequestRule := []
  rulesTRACE : List RequestRule := []
  rulesCONNECT : List RequestRule := []
  rulesOPTION : List RequestRule := []
  rulesANY : List RequestRule := []
deriving DecidableEq, Repr

/-- `self.method_table[method]`: `some` the rule list for the eight keys
created by `__init__`, `none` for every other method string
(a Python `KeyError`). -/
def RequestRouter.method_table (rt : RequestRouter) : String → Option (List RequestRule)
  | "GET" => some rt.rulesGET
  | "POST" => some rt.rulesPOST
  | "PUT" => some rt.rulesPUT
  | "DELETE" => some rt.rulesDELETE
  | "TRACE" => some rt.rulesTRACE
  | "CONNECT" => some rt.rulesCONNECT
  | "OPTION" => some rt.rulesOPTION
  | "ANY" => some rt.rulesANY
  | _ => none

/-- The `for rule in rules: if rule.regex.match(url): return rule` scan:
first rule in insertion order whose pattern matches. -/
def firstMatch (rules : List RequestRule) (url : String) : Option RequestRule :=
  rules.find? (fun r => r.regex.pymatch url)

/-- What `RequestRouter.match` can raise: `KeyError` from
`self.method_table[method]` when the key is absent, or the final
`HttpError(404)` (whose body is the default `""`). -/
inductive RouterExc where
  | keyError
  | httpError (status : Nat)
deriving DecidableEq, Repr

/-- Termination measure for the `match` recursion: the recursive calls go
to the interned literals `'GET'` (rank 1) and `'ANY'` (rank 0), and are
made only from a method of strictly larger rank. -/
def matchRank (m : PyStr) : Nat :=
  if pyIs m "ANY" then 0 else if pyIs m "HEAD" then 2 else 1

/-- `RequestRouter.match(method, url)`, line by line:
scan `self.method_table[method]` (KeyError if the key is absent — and
`"HEAD"` is absent); on no match, `if method is 'HEAD'` retry on `'GET'`;
then `if method is not 'ANY'` retry on `'ANY'`; else raise
`HttpError(404)`.  The `is` tests are object-identity tests against the
module literals, modelled by `pyIs`; the recursive calls pass the module
literals themselves, hence `PyStr.lit`. -/
def RequestRouter.match (rt : RequestRouter) (method : PyStr) (url : String) :
    Except RouterExc RequestRule :=
  match rt.method_table method.val with
  | none => .error .keyError
  | some rules =>
    match firstMatch rules url with
    | some rule => .ok rule
    | none =>
      if pyIs method "HEAD" then rt.match (PyStr.lit "GET") url
      else if pyIs method "ANY" then .error (.httpError 404)
      else rt.match (PyStr.lit "ANY") url
termination_by matchRank method
decreasing_by
  · simp only [matchRank, pyIs, PyStr.lit, Bool.and_eq_true, beq_iff_eq] at *
    split_ifs <;> simp_all
  · simp only [matchRank, pyIs, PyStr.lit, Bool.and_eq_true, beq_iff_eq] at *
    split_ifs <;> simp_all

/-! ## The WSGI environ and `HttpRequest` -/

/-- The `wsgi.input` body stream: a byte string together with the current
read position.  `read(n)` returns up to `n` bytes from the position and
advances it by the number of bytes actually returned. -/
structure WsgiInput where
  data : String
  pos : Nat
deriving DecidableEq, Repr

/-- `fp.read(n)`: the returned chunk and the stream afterwards. -/
def WsgiInput.read (fp : WsgiInput) (n : Nat) : String × WsgiInput :=
  let chunk := String.mk ((fp.data.toList.drop fp.pos).take n)
  (chunk, { fp with pos := fp.pos + chunk.length })

/-- The WSGI environ dict: its string-valued entries (request metadata and
headers, keyed as `REQUEST_METHOD`, `PATH_INFO`, `CONTENT_LENGTH`,
`HTTP_*`, ...) plus the `wsgi.input` stream object. -/
structure Environ where
  strs : List (String × String) := []
  input : Option WsgiInput := none
deriving DecidableEq, Repr

/-- Dict lookup among the string-valued entries. -/
def Environ.lookup (env : Environ) (k : String) : Option String :=
  (env.strs.find? (fun p => p.1 == k)).map (·.2)

/-- `environ.get(k, d)` for string-valued entries. -/
def Environ.get (env : Environ) (k d : String) : String :=
  (env.lookup k).getD d

/-- `HttpRequest.method`:
`environ.get('REQUEST_METHOD', "GET").upper()` as a plain string. -/
def HttpRequest.methodVal (env : Environ) : String :=
  pyUpper (env.get "REQUEST_METHOD" "GET")

/-- `HttpRequest.method` as the Python string object handed to the router:
`str.upper()` always allocates, so the result is never an interned
literal. -/
def HttpRequest.methodPy (env : Environ) : PyStr :=
  PyStr.fresh (HttpRequest.methodVal env)

/-- `HttpRequest.path`: `environ.get('PATH_INFO', "").strip("/")`, then
`"/"` if empty, else `"/" + stripped`. -/
def HttpRequest.path (env : Environ) : String :=
  let url_path := pyStrip (env.get "PATH_INFO" "") '/'
  if url_path = "" then "/" else "/" ++ url_path

/-- Exceptions of the modelled request methods. -/
inductive PyExc where
  | nameError
  | attributeError
  | valueError
deriving DecidableEq, Repr

/-- `HttpRequest._environ_header_key`: upper-case the header name, then
map `-` to `_`, prefixing `HTTP_` except for the two special headers. -/
def HttpRequest.environ_header_key (request_header : String) : String :=
  let h := pyUpper request_header
  if h = "CONTENT-TYPE" ∨ h = "CONTENT-LENGTH" then pyReplaceChar h '-' '_'
  else "HTTP_" ++ pyReplaceChar h '-' '_'

/-- `HttpRequest.get_header`: environ lookup of the normalized key,
re-raising the `KeyError` as an `AttributeError`. -/
def HttpRequest.get_header (env : Environ) (request_header : String) :
    Except PyExc String :=
  match env.lookup (HttpRequest.environ_header_key request_header) with
  | some v => .ok v
  | none => .error .attributeError

/-- Every name bound in the module namespace of `vanilla.py`: the
imports of lines 13–34, the Py2/Py3 compatibility alias (`unicode` on
Py3), the module constants, the helper functions and the classes.  The
name `environ` is not among them, and it is not a Python builtin
either. -/
def vanillaModuleGlobals : List String :=
  ["os", "re", "sys", "time", "json", "socket", "mimetypes",
   "deepcopy", "local", "format_exc",
   "httplib", "builtins", "getfullargspec", "parse_qs", "unicode",
   "_HTTP_PORT", "_HTTP_METHOD", "_HTTP_STATUS", "_HTTP_ERROR_PAGE_CONTENT",
   "_errno", "u2b", "b2u",
   "VanillaError", "EngineError", "HttpAbort", "RouterError",
   "TemplateAdapter", "Engine", "RequestRouter", "RequestRule",
   "HttpContext", "HttpRequest", "HttpResponse", "HttpError"]

/-- `HttpRequest.has_header`: the source body is
`return self._environ_header_key(request_header) in environ.keys()` —
the bare name `environ` (not `self.environ`) is resolved in the module
global namespace and then among the builtins; `vanillaModuleGlobals`
lists every module-level binding and `environ` is absent, so the lookup
raises `NameError` before the membership test is reached.  The
environ of the request (`self`) is a parameter for fidelity with the
method signature but cannot be consulted by the body. -/
def HttpRequest.has_header (env : Environ) (request_header : String) :
    Except PyExc Bool :=
  if "environ" ∈ vanillaModuleGlobals then
    .ok ((env.lookup (HttpRequest.environ_header_key request_header)).isSome)
  else
    .error .nameError

/-! ## `HttpRequest.data`: request state and the memoized body read -/

/-- The mutable per-request state touched by the `data` property: the
environ (whose `wsgi.input` stream advances as it is read) and the
`_data` cache slot, `None` on a fresh request. -/
structure HttpRequestSt where
  environ : Environ
  cache : Option String := none
deriving DecidableEq, Repr

/-- The body of the `data` property past the cache test: read the
`content-type` and `content-length` headers (an absent header raises
`AttributeError`), give up with `""` when there is no `wsgi.input`,
treat an empty `content-length` as `0`, parse it with `int` (raising
`ValueError` on garbage), read that many bytes and store them in
`_data`.  The result triple also counts the `read` calls made (0 or 1). -/
def dataCompute (req : HttpRequestSt) : Except PyExc (String × HttpRequestSt × Nat) :=
  match HttpRequest.get_header req.environ "content-type" with
  | .error e => .error e
  | .ok _ =>
    match HttpRequest.get_header req.environ "content-length" with
    | .error e => .error e
    | .ok cl =>
      match req.environ.input with
      | none => .ok ("", req, 0)
      | some fp =>
        match (if cl = "" then some 0 else pyToNat? cl) with
        | none => .error .valueError
        | some n =>
          let p := fp.read n
          .ok (p.1,
               { req with cache := some p.1,
                          environ := { req.environ with input := some p.2 } },
               1)

/-- One access of the `data` property.  The guard `if self._data:` is a
truthiness test: it short-circuits only when `_data` is a non-empty
string — `None` (fresh request) and `""` (cached empty body) both fall
through to a recomputation. -/
def HttpRequest.dataProperty (req : HttpRequestSt) :
    Except PyExc (String × HttpRequestSt × Nat) :=
  match req.cache with
  | some s => if s = "" then dataCompute req else .ok (s, req, 0)
  | none => dataCompute req

/-- Two consecutive accesses of `data`: both values, the final request
state, and the total number of `read` calls on the underlying stream. -/
def dataTwice (req : HttpRequestSt) :
    Except PyExc (String × String × HttpRequestSt × Nat) :=
  match HttpRequest.dataProperty req with
  | .error e => .error e
  | .ok (v1, r1, n1) =>
    match HttpRequest.dataProperty r1 with
    | .error e => .error e
    | .ok (v2, r2, n2) => .ok (v1, v2, r2, n1 + n2)

/-- Read position of the request's body stream (0 when there is none). -/
def streamPos (req : HttpRequestSt) : Nat :=
  match req.environ.input with
  | some fp => fp.pos
  | none => 0

/-! ## `HttpResponse` -/

/-- A response body: the string set by `__init__`/the handler, or the
list of chunks `_make_output` wraps it into.  (Streaming file bodies are
outside the scope of the claims.) -/
inductive BodyVal where
  | str (s : String)
  | chunks (l : List String)
deriving DecidableEq, Repr

/-- `HttpResponse`: integer status, the `headers` dict (insertion-ordered
mapping from header name to the list of its values) and the body. -/
structure HttpResponse where
  status : Nat
  headers : List (String × List String)
  body : BodyVal
deriving DecidableEq, Repr

/-- `HttpResponse()`: status 200, empty headers dict, empty body. -/
def HttpResponse.fresh : HttpResponse := ⟨200, [], .str ""⟩

/-- `HttpError(status, body="")` as the response object it is: fresh
headers dict, the given status and body. -/
def HttpError.mk (status : Nat) (body : String) : HttpResponse :=
  ⟨status, [], .str body⟩

/-- `HttpResponse.default_content_type`. -/
def default_content_type : String := "text/html; charset=UTF-8"

/-- `_HTTP_ERROR_PAGE_CONTENT`, the hardcoded generic error page. -/
def httpErrorPageContent : String :=
  "<html><title>oops</title><body>Http Error occurred</body></html>"

/-- `HttpResponse.set_header`: `self.headers[name] = [value]` — replace
the value list of an existing key in place, else append a new entry
(Python dicts keep insertion order and keep the position of a re-assigned
key). -/
def HttpResponse.set_header (r : HttpResponse) (name value : String) : HttpResponse :=
  if r.headers.any (fun p => p.1 == name) then
    { r with headers := r.headers.map fun p => if p.1 == name then (p.1, [value]) else p }
  else
    { r with headers := r.headers ++ [(name, [value])] }

/-- `HttpResponse.add_header`: create the key with `[]` if absent, then
append the value to its list. -/
def HttpResponse.add_header (r : HttpResponse) (name value : String) : HttpResponse :=
  if r.headers.any (fun p => p.1 == name) then
    { r with headers := r.headers.map fun p => if p.1 == name then (p.1, p.2 ++ [value]) else p }
  else
    { r with headers := r.headers ++ [(name, [value])] }

/-- `HttpResponse.header_fields`: start from an empty list; when the key
`"Content-Type"` is absent from the headers dict, append the default
content type under the (misspelled, exactly as in the source) name
`"Context-Type"`; then flatten the dict, one pair per value. -/
def HttpResponse.header_fields (r : HttpResponse) : List (String × String) :=
  let base :=
    if r.headers.any (fun p => p.1 == "Content-Type") then []
    else [("Context-Type", default_content_type)]
  base ++ (r.headers.map (fun p => p.2.map (fun v => (p.1, v)))).flatten

/-! ## The engine -/

/-- The engine configuration consulted by `_request_handler` and
`_make_output`: the two flags, the router, the error-page registry
(a dict from status code to handler) and the two hook lists. -/
structure Engine where
  debug : Bool := false
  catchExc : Bool := true
  router : RequestRouter
  err_handler : List (Nat × ErrPageSpec) := []
  pre : List HookSpec := []
  post : List HookSpec := []

/-- `self.err_handler.get(int(status_code), None)`. -/
def Engine.errHandlerFor (eng : Engine) (status : Nat) : Option ErrPageSpec :=
  (eng.err_handler.find? (fun p => p.1 == status)).map (·.2)

/-- Run one hook against the live response; `.error` is a raised
exception (the response keeps the mutations made so far). -/
def runHook : HookSpec → HttpResponse → Except HttpResponse HttpResponse
  | .addHeader n v, r => .ok (r.add_header n v)
  | .setHeader n v, r => .ok (r.set_header n v)
  | .setStatus s, r => .ok { r with status := s }
  | .noop, r => .ok r
  | .raiseExc, r => .error r

/-- `for processor in hooks: processor()` — run the hooks in order,
logging one `ev` per invoked hook; stop at the first raised exception,
keeping the response state at that point. -/
def runHooks (ev : Event) : List HookSpec → HttpResponse →
    List Event × Except HttpResponse HttpResponse
  | [], r => ([], .ok r)
  | h :: t, r =>
    match runHook h r with
    | .ok r2 =>
      let rest := runHooks ev t r2
      (ev :: rest.1, rest.2)
    | .error r2 => ([ev], .error r2)

/-- A stand-in for the `format_exc()` traceback text captured when
`debug` is enabled. -/
def formatExc : String := "Traceback (most recent call last): ..."

/-- The modelled result of `_request_handler`: the returned buffer, the
final `self.content.response`, and the event log; `.error ()` is the
`raise` that re-propagates an unexpected exception when
`appCatchExc` is off. -/
abbrev HandlerResult := Except Unit (String × HttpResponse × List Event)

/-- The tail of `_request_handler` below the `try` statement (“something
wrong, which means we got http error response”): look up an error-page
handler for the response's status code; invoke it if present, catching
any failure by downgrading to `HttpError(500)` with the generic page
content (capturing a trace when `debug` is on); without a handler use
the generic content; finally return the debug trace instead of the
buffer when one was captured. -/
def Engine.errorTail (eng : Engine) (resp : HttpResponse) (bufExc : Option String)
    (log : List Event) : HandlerResult :=
  match eng.errHandlerFor resp.status with
  | some h =>
    let log2 := log ++ [Event.errPage]
    match h with
    | .ret p => .ok ((bufExc.getD p), resp, log2)
    | .raiseExc =>
      let resp2 := HttpError.mk 500 ""
      let bufExc2 := if eng.debug then some formatExc else bufExc
      .ok (bufExc2.getD httpErrorPageContent, resp2, log2)
  | none => .ok (bufExc.getD httpErrorPageContent, resp, log)

/-- The `except:` branch of `_request_handler`: re-raise when
`appCatchExc` is off, otherwise replace the response by
`HttpError(500)`, capture a trace when `debug` is on, and continue into
the error tail. -/
def Engine.catchAll (eng : Engine) (log : List Event) : HandlerResult :=
  if eng.catchExc then
    Engine.errorTail eng (HttpError.mk 500 "")
      (if eng.debug then some formatExc else none) log
  else .error ()

/-- `Engine._request_handler`, step by step: build a fresh
request/response pair; route (`KeyError` and `HttpError` from the router
go to the `except` clauses); run the pre-hooks; invoke the matched
rule's handler; on normal return store the buffer as the response body,
run the post-hooks and return the body; on `HttpAbort` return the
abort's buffer directly; on `HttpError` splice the raised response in;
on anything else behave per `appCatchExc`. -/
def Engine.request_handler (eng : Engine) (env : Environ) : HandlerResult :=
  let meth := HttpRequest.methodPy env
  let path := HttpRequest.path env
  let resp0 := HttpResponse.fresh
  match eng.router.match meth path with
  | .error .keyError => Engine.catchAll eng []
  | .error (.httpError s) => Engine.errorTail eng (HttpError.mk s "") none []
  | .ok rule =>
    match runHooks Event.preHook eng.pre resp0 with
    | (log1, .error _) => Engine.catchAll eng log1
    | (log1, .ok r1) =>
      let log2 := log1 ++ [Event.handlerCall]
      match rule.handler with
      | .ret buf =>
        let r2 := { r1 with body := BodyVal.str buf }
        match runHooks Event.postHook eng.post r2 with
        | (log3, .error _) => Engine.catchAll eng (log2 ++ log3)
        | (log3, .ok r3) =>
          .ok ((match r3.body with | .str s => s | .chunks _ => ""), r3, log2 ++ log3)
      | .abortWith buf => .ok (buf, r1, log2)
      | .raiseHttp s b => Engine.errorTail eng (HttpError.mk s b) none log2
      | .raiseExc => Engine.catchAll eng log2

/-- `Engine._make_output`: force an empty buffer for `HEAD` requests
(plain `==` comparison on the method string), then wrap the buffer as a
single chunk (also when empty). -/
def Engine.make_output (env : Environ) (buf : String) (resp : HttpResponse) :
    HttpResponse :=
  let buf2 := if HttpRequest.methodVal env = "HEAD" then "" else buf
  if buf2 = "" then { resp with body := BodyVal.chunks [""] }
  else { resp with body := BodyVal.chunks [buf2] }

/-- `Engine.wsgi` up to the transport hand-off: run `_request_handler`,
then `_make_output` on the returned buffer. -/
def Engine.handleRequest (eng : Engine) (env : Environ) :
    Except Unit (HttpResponse × List Event) :=
  match eng.request_handler env with
  | .error e => .error e
  | .ok (buf, resp, log) => .ok (Engine.make_output env buf resp, log)

/-- The final response of a request, when handling did not re-propagate
an exception. -/
def resultResponse (r : Except Unit (HttpResponse × List Event)) : Option HttpResponse :=
  match r with
  | .ok (resp, _) => some resp
  | .error _ => none

/-- The invocation events of a request. -/
def resultEvents (r : Except Unit (HttpResponse × List Event)) : List Event :=
  match r with
  | .ok (_, log) => log
  | .error _ => []

/-! ## Concrete instances used by the claim theorems -/

/-- The router of the C1 scenario: one `GET` rule for the path `/x`,
no `HEAD` or `ANY` rules. -/
def c1Rule : RequestRule := ⟨.lit "/x", .ret "hi"⟩

/-- Engine with the C1 router, default flags (`appCatchExc=True`,
`appDebug=False`), no hooks, no error pages. -/
def c1Engine : Engine := { router := { rulesGET := [c1Rule] } }

/-- A `HEAD` request for `/x`. -/
def c1Env : Environ := { strs := [("REQUEST_METHOD", "HEAD"), ("PATH_INFO", "/x")] }

/-- The C2 witness table: a non-matching rule inserted first, then two
rules whose identical pattern `/a` both match the path `/abc` (a strict
prefix — demonstrating the unanchored semantics). -/
def c2Rules : List RequestRule :=
  [⟨.lit "/zzz", .ret "zero"⟩, ⟨.lit "/a", .ret "first"⟩, ⟨.lit "/a", .ret "second"⟩]

/-- Router with the C2 table registered for `GET`. -/
def c2Router : RequestRouter := { rulesGET := c2Rules }

/-- The C3 witness rule and engine: the handler for `/` aborts with
`"hello"`; a pre-hook, a post-hook and a 500 error page are all
registered. -/
def c3Rule : RequestRule := ⟨.lit "/", .abortWith "hello"⟩

/-- Engine for the C3 witness. -/
def c3Engine : Engine :=
  { router := { rulesGET := [c3Rule] },
    pre := [.addHeader "X-Pre" "on"],
    post := [.noop],
    err_handler := [(500, .ret "errorpage")] }

/-- A `GET /` request. -/
def c3Env : Environ := { strs := [("REQUEST_METHOD", "GET"), ("PATH_INFO", "/")] }

/-- The C4 witness rule and engine: the handler for `/` raises
`HttpError(403)`; a pre-hook sets a header on the (to be discarded)
response; a 403 error page returning `"forbidden page"` is registered. -/
def c4Rule : RequestRule := ⟨.lit "/", .raiseHttp 403 ""⟩

/-- Engine for the C4 witness. -/
def c4Engine : Engine :=
  { router := { rulesGET := [c4Rule] },
    pre := [.addHeader "X-Pre" "1"],
    err_handler := [(403, .ret "forbidden page")] }

/-- The C5 witness rule and engine: the handler raises
`HttpError(418)` and the registered 418 error page itself raises. -/
def c5Rule : RequestRule := ⟨.lit "/", .raiseHttp 418 "teapot"⟩

/-- Engine for the C5 witness (debug off). -/
def c5Engine : Engine :=
  { router := { rulesGET := [c5Rule] },
    err_handler := [(418, .raiseExc)] }

/-- The C8 counterexample request: both headers present, a body stream,
and `Content-Length: 0` — a request whose body is legitimately empty. -/
def c8Request : HttpRequestSt :=
  { environ := { strs := [("CONTENT_TYPE", "text/plain"), ("CONTENT_LENGTH", "0")],
                 input := some ⟨"abc", 0⟩ } }

/-- Total number of `read()` invocations on the underlying stream over
two consecutive accesses of `data` on the C8 request. -/
def c8TotalReads : Nat :=
  match dataTwice c8Request with
  | .ok (_, _, _, n) => n
  | .error _ => 0

/-- The fresh C8 witness request: `Content-Length: 3` over the stream
`"abc"`. -/
def c8wRequest : HttpRequestSt :=
  { environ := { strs := [("CONTENT_TYPE", "text/plain"), ("CONTENT_LENGTH", "3")],
                 input := some ⟨"abc", 0⟩ } }

/-- The state after the first `data` access on the witness request: the
body is cached and the stream fully consumed. -/
def c8wAfter : HttpRequestSt :=
  { environ := { strs := [("CONTENT_TYPE", "text/plain"), ("CONTENT_LENGTH", "3")],
                 input := some ⟨"abc", 3⟩ },
    cache := some "abc" }

/-! ## Router lemmas -/

/-- A freshly allocated string is never `is`-identical to a literal. -/
theorem pyIs_fresh (s l : String) : pyIs (PyStr.fresh s) l = false := rfl

/-- `match` on a method string whose key is absent from `method_table`
raises `KeyError` immediately (before any fallback test). -/
theorem match_keyError (rt : RequestRouter) (m : PyStr) (url : String)
    (h : rt.method_table m.val = none) :
    rt.match m url = .error .keyError := by
  rw [RequestRouter.match, h]

/-- `match` returns the first matching rule of the method's own table. -/
theorem match_found (rt : RequestRouter) (m : PyStr) (url : String)
    (rules : List RequestRule) (r : RequestRule)
    (h : rt.method_table m.val = some rules)
    (hf : firstMatch rules url = some r) :
    rt.match m url = .ok r := by
  rw [RequestRouter.match, h]
  simp [hf]

/-- When nothing in its own table matches, a *freshly allocated* method
string fails both identity tests (`is 'HEAD'`, `is not 'ANY'` is true), so
`match` falls through directly to the `'ANY'` table — in particular a
fresh `"HEAD"` string would never reach the `GET` fallback. -/
theorem match_fresh_fallback (rt : RequestRouter) (m : String) (url : String)
    (rules : List RequestRule)
    (h : rt.method_table m = some rules)
    (hf : firstMatch rules url = none) :
    rt.match (PyStr.fresh m) url = rt.match (PyStr.lit "ANY") url := by
  rw [RequestRouter.match]
  simp only [PyStr.fresh, h, hf, pyIs, Bool.false_and, Bool.and_eq_true]
  rfl

/-- `match` called with the interned literal `'ANY'` scans the `ANY` table
and raises `HttpError(404)` when nothing matches. -/
theorem match_lit_any (rt : RequestRouter) (url : String) :
    rt.match (PyStr.lit "ANY") url =
      (match firstMatch rt.rulesANY url with
       | some r => Except.ok r
       | none => Except.error (RouterExc.httpError 404)) := by
  rw [RequestRouter.match]
  cases hf : firstMatch rt.rulesANY url <;>
    simp [RequestRouter.method_table, pyIs, PyStr.lit, hf]

/-! ## Helper lemmas -/

/-- A successful route lookup implies the method string was not `"HEAD"`:
`method_table` has no `"HEAD"` key, so the lookup would have raised
`KeyError` first. -/
theorem match_ok_val_ne_head (rt : RequestRouter) (m : PyStr) (url : String)
    (r : RequestRule) (h : rt.match m url = .ok r) : m.val ≠ "HEAD" := by
  intro hval
  rw [match_keyError rt m url (by rw [hval]; rfl)] at h
  exact Except.noConfusion h

/-- Hooks that do not raise run to completion: the log is one event per
hook and the loop ends normally in some response state. -/
theorem runHooks_no_raise (ev : Event) :
    ∀ (hooks : List HookSpec) (r : HttpResponse),
      (∀ x ∈ hooks, x ≠ HookSpec.raiseExc) →
      ∃ r2, runHooks ev hooks r = (List.replicate hooks.length ev, Except.ok r2) := by
  intro hooks
  induction hooks with
  | nil => exact fun r _ => ⟨r, rfl⟩
  | cons a t ih =>
    intro r h
    have ha : a ≠ HookSpec.raiseExc := h a (List.mem_cons_self a t)
    have ht : ∀ x ∈ t, x ≠ HookSpec.raiseExc :=
      fun x hx => h x (List.mem_cons_of_mem a hx)
    cases a with
    | raiseExc => exact absurd rfl ha
    | addHeader n v =>
      obtain ⟨r2, hrec⟩ := ih (r.add_header n v) ht
      exact ⟨r2, by simp [runHooks, runHook, hrec, List.replicate_succ]⟩
    | setHeader n v =>
      obtain ⟨r2, hrec⟩ := ih (r.set_header n v) ht
      exact ⟨r2, by simp [runHooks, runHook, hrec, List.replicate_succ]⟩
    | setStatus s =>
      obtain ⟨r2, hrec⟩ := ih { r with status := s } ht
      exact ⟨r2, by simp [runHooks, runHook, hrec, List.replicate_succ]⟩
    | noop =>
      obtain ⟨r2, hrec⟩ := ih r ht
      exact ⟨r2, by simp [runHooks, runHook, hrec, List.replicate_succ]⟩

/-- `find?` returns the element at index `i` when it satisfies the
predicate and every earlier element fails it. -/
theorem find?_at_index {α : Type} (p : α → Bool) :
    ∀ (l : List α) (i : Nat) (a : α),
      l.get? i = some a → p a = true →
      (∀ k b, k < i → l.get? k = some b → p b = false) →
      l.find? p = some a := by
  intro l
  induction l with
  | nil => intro i a hga; simp at hga
  | cons x t ih =>
    intro i a hga hpa hk
    cases i with
    | zero =>
      simp only [List.get?] at hga
      cases hga
      simp [List.find?, hpa]
    | succ j =>
      have hx : p x = false := hk 0 x (Nat.succ_pos j) rfl
      simp only [List.get?] at hga
      have := ih j a hga hpa
        (fun k b hkj hgb => hk (k + 1) b (Nat.succ_lt_succ hkj) hgb)
      simp [List.find?, hx, this]

/-- A successful `dataCompute` run either found no `wsgi.input` stream
(returning `""` without touching the cache or calling `read`), or
performed exactly one `read` of the parsed `content-length` and cached
the chunk. -/
theorem dataCompute_cases (req : HttpRequestSt) (v : String) (r : HttpRequestSt) (n : Nat)
    (h : dataCompute req = .ok (v, r, n)) :
    (req.environ.input = none ∧ v = "" ∧ r = req ∧ n = 0)
    ∨ (∃ fp m cl,
        HttpRequest.get_header req.environ "content-length" = Except.ok cl
        ∧ req.environ.input = some fp
        ∧ (if cl = "" then some 0 else pyToNat? cl) = some m
        ∧ v = (fp.read m).1
        ∧ r = { req with cache := some (fp.read m).1,
                         environ := { req.environ with input := some (fp.read m).2 } }
        ∧ n = 1) := by
  unfold dataCompute at h
  split at h
  · exact Except.noConfusion h
  split at h
  · exact Except.noConfusion h
  rename_i cl hcl
  split at h
  · rename_i hinp
    simp only [Except.ok.injEq, Prod.mk.injEq] at h
    exact Or.inl ⟨hinp, h.1.symm, h.2.1.symm, h.2.2.symm⟩
  rename_i fp hinp
  split at h
  · exact Except.noConfusion h
  rename_i m hm
  simp only [Except.ok.injEq, Prod.mk.injEq] at h
  exact Or.inr ⟨fp, m, cl, hcl, hinp, hm, h.1.symm, h.2.1.symm, h.2.2.symm⟩

/-- A read that returned the empty chunk left the stream exactly where
it was. -/
theorem read_empty_fix (fp : WsgiInput) (m : Nat) (h : (fp.read m).1 = "") :
    (fp.read m).2 = fp := by
  cases fp with
  | mk d p =>
    have hl : (d.toList.drop p).take m = [] := congrArg String.data h
    simp only [WsgiInput.read, hl]
    rfl

/-! ## Claim C1 -/

/-- Claim C1, code-bug evidence.  A `HEAD` request to a path with a
matching `GET` rule does not resolve to that rule: `_HTTP_METHOD` omits
`"HEAD"`, so `self.method_table[method]` raises `KeyError` before the
`GET` fallback can be consulted, the engine's bare `except:` turns that
into `HttpError(500)`, and the final response is a 500 with the forced
empty `HEAD` body — the matching `GET` handler is never invoked, although
its pattern does match the requested path. -/
theorem C1_head_request_keyerror_500 :
    c1Engine.router.match (HttpRequest.methodPy c1Env) (HttpRequest.path c1Env) =
      .error .keyError
    ∧ c1Rule.regex.pymatch (HttpRequest.path c1Env) = true
    ∧ resultResponse (c1Engine.handleRequest c1Env) =
        some ⟨500, [], .chunks [""]⟩
    ∧ Event.handlerCall ∉ resultEvents (c1Engine.handleRequest c1Env) := by
  have hm : c1Engine.router.match (HttpRequest.methodPy c1Env) (HttpRequest.path c1Env) =
      .error .keyError := match_keyError _ _ _ rfl
  refine ⟨hm, rfl, ?_, ?_⟩ <;>
    simp only [Engine.handleRequest, Engine.request_handler, hm] <;> decide

/-! ## Claim C2 -/

/-- Claim C2, confirmed.  If the rule `R1` sits at position `i` of the
method's table, its (unanchored, metacharacter-free) pattern `p1` is an
initial segment of the path, and every rule inserted before it fails to
match, then `match` returns `R1`: rules are scanned in insertion order
and the first whose compiled pattern matches from the start wins, the
pattern being a prefix of the path — not necessarily the whole path. -/
theorem C2_insertion_order (rt : RequestRouter) (method : PyStr) (url : String)
    (rules : List RequestRule) (i : Nat) (R1 : RequestRule) (p1 : String)
    (htab : rt.method_table method.val = some rules)
    (hpat : R1.regex = RePattern.lit p1)
    (hpre : pyStartsWith p1 url = true)
    (hearlier : ∀ k r, k < i → rules.get? k = some r → r.regex.pymatch url = false)
    (hR1 : rules.get? i = some R1) :
    rt.match method url = .ok R1 := by
  refine match_found rt method url rules R1 htab ?_
  refine find?_at_index _ rules i R1 hR1 ?_ (fun k b hkb hgb => hearlier k b hkb hgb)
  rw [hpat]
  exact hpre

/-- Witness for C2 at a concrete router: of the two rules matching
`/abc`, the one inserted first is returned, and its pattern `/a` matches
`/abc` only as a prefix. -/
theorem C2_insertion_order_witness :
    c2Router.match (PyStr.fresh "GET") "/abc" = .ok ⟨.lit "/a", .ret "first"⟩ :=
  C2_insertion_order c2Router (PyStr.fresh "GET") "/abc" c2Rules 1
    ⟨.lit "/a", .ret "first"⟩ "/a" rfl rfl (by decide)
    (by
      intro k r hk hr
      have hk0 : k = 0 := Nat.lt_one_iff.mp hk
      subst hk0
      simp only [c2Rules, List.get?] at hr
      cases hr
      decide)
    rfl

/-! ## Claim C3 -/

/-- Claim C3, confirmed.  When the matched handler raises
`HttpAbort("hello")` (and the pre-hooks themselves do not fail, so that
the handler is reached), the `except HttpAbort` clause returns the abort
buffer directly: the final response body is the single chunk `"hello"`,
and neither a post-request hook nor an error-page handler is invoked. -/
theorem C3_abort_short_circuit (eng : Engine) (env : Environ) (rule : RequestRule)
    (hmatch : eng.router.match (HttpRequest.methodPy env) (HttpRequest.path env) =
      .ok rule)
    (hhandler : rule.handler = .abortWith "hello")
    (hpre : ∀ x ∈ eng.pre, x ≠ HookSpec.raiseExc) :
    (∃ r, resultResponse (eng.handleRequest env) = some r ∧ r.body = .chunks ["hello"])
    ∧ Event.postHook ∉ resultEvents (eng.handleRequest env)
    ∧ Event.errPage ∉ resultEvents (eng.handleRequest env) := by
  have hne : HttpRequest.methodVal env ≠ "HEAD" :=
    match_ok_val_ne_head _ _ _ _ hmatch
  obtain ⟨r1, hrh⟩ := runHooks_no_raise Event.preHook eng.pre HttpResponse.fresh hpre
  have hreq : eng.request_handler env =
      .ok ("hello", r1,
           List.replicate eng.pre.length Event.preHook ++ [Event.handlerCall]) := by
    simp only [Engine.request_handler, hmatch, hrh, hhandler]
  have hfinal : eng.handleRequest env =
      .ok ({ r1 with body := .chunks ["hello"] },
           List.replicate eng.pre.length Event.preHook ++ [Event.handlerCall]) := by
    simp only [Engine.handleRequest, hreq, Engine.make_output]
    rw [if_neg hne]
    simp
  refine ⟨⟨_, by rw [hfinal]; rfl, rfl⟩, ?_, ?_⟩ <;>
    simp [hfinal, resultEvents, List.mem_replicate, List.mem_append]

/-- Witness for C3 at a concrete engine with a registered post-hook and
error page: the abort buffer becomes the body and neither is invoked. -/
theorem C3_abort_short_circuit_witness :
    (∃ r, resultResponse (c3Engine.handleRequest c3Env) = some r
          ∧ r.body = .chunks ["hello"])
    ∧ Event.postHook ∉ resultEvents (c3Engine.handleRequest c3Env)
    ∧ Event.errPage ∉ resultEvents (c3Engine.handleRequest c3Env) :=
  C3_abort_short_circuit c3Engine c3Env c3Rule
    (match_found _ _ _ [c3Rule] c3Rule rfl rfl) rfl (by decide)

/-! ## Claim C4 -/

/-- Claim C4, confirmed.  When the handler raises `HttpError(403)` with
no body and a 403 error page is registered, the raised error object
replaces `self.content.response` wholesale: the final response has
status 403, carries the error page's output as its body — and its
headers dict is the fresh one of the `HttpError`, so anything a
pre-request hook had set on the previous response is gone. -/
theorem C4_error_replaces_response (eng : Engine) (env : Environ)
    (rule : RequestRule) (P : String)
    (hmatch : eng.router.match (HttpRequest.methodPy env) (HttpRequest.path env) =
      .ok rule)
    (hhandler : rule.handler = .raiseHttp 403 "")
    (hpre : ∀ x ∈ eng.pre, x ≠ HookSpec.raiseExc)
    (herr : eng.errHandlerFor 403 = some (.ret P)) :
    resultResponse (eng.handleRequest env) = some ⟨403, [], .chunks [P]⟩ := by
  have hne : HttpRequest.methodVal env ≠ "HEAD" :=
    match_ok_val_ne_head _ _ _ _ hmatch
  obtain ⟨r1, hrh⟩ := runHooks_no_raise Event.preHook eng.pre HttpResponse.fresh hpre
  have hreq : eng.request_handler env =
      .ok (P, HttpError.mk 403 "",
           (List.replicate eng.pre.length Event.preHook ++ [Event.handlerCall])
             ++ [Event.errPage]) := by
    simp only [Engine.request_handler, hmatch, hrh, hhandler, Engine.errorTail,
               HttpError.mk, herr, Option.getD]
  have hfinal : eng.handleRequest env =
      .ok (⟨403, [], .chunks [P]⟩,
           (List.replicate eng.pre.length Event.preHook ++ [Event.handlerCall])
             ++ [Event.errPage]) := by
    simp only [Engine.handleRequest, hreq, Engine.make_output]
    rw [if_neg hne]
    by_cases hP : P = ""
    · subst hP; simp [HttpError.mk]
    · simp [HttpError.mk, hP]
  rw [hfinal]
  rfl

/-- Witness for C4: status 403, the error page's output as body, and no
trace of the header the pre-hook had added. -/
theorem C4_error_replaces_response_witness :
    resultResponse (c4Engine.handleRequest c3Env) =
      some ⟨403, [], .chunks ["forbidden page"]⟩ :=
  C4_error_replaces_response c4Engine c3Env c4Rule "forbidden page"
    (match_found _ _ _ [c4Rule] c4Rule rfl rfl) rfl (by decide) rfl

/-! ## Claim C5 -/

/-- Claim C5, confirmed.  On the error path (here entered through a
handler raising `HttpError(s)`), when the registered error page for `s`
itself raises, the engine catches the failure, replaces the response by
`HttpError(500)` and — debug mode off — returns the hardcoded generic
error page body: request handling terminates normally rather than
propagating the error-page failure. -/
theorem C5_error_page_failure_contained (eng : Engine) (env : Environ)
    (rule : RequestRule) (s : Nat) (b : String)
    (hmatch : eng.router.match (HttpRequest.methodPy env) (HttpRequest.path env) =
      .ok rule)
    (hhandler : rule.handler = .raiseHttp s b)
    (hpre : ∀ x ∈ eng.pre, x ≠ HookSpec.raiseExc)
    (hdbg : eng.debug = false)
    (herr : eng.errHandlerFor s = some .raiseExc) :
    resultResponse (eng.handleRequest env) =
      some ⟨500, [], .chunks [httpErrorPageContent]⟩ := by
  have hne : HttpRequest.methodVal env ≠ "HEAD" :=
    match_ok_val_ne_head _ _ _ _ hmatch
  obtain ⟨r1, hrh⟩ := runHooks_no_raise Event.preHook eng.pre HttpResponse.fresh hpre
  have hreq : eng.request_handler env =
      .ok (httpErrorPageContent, HttpError.mk 500 "",
           (List.replicate eng.pre.length Event.preHook ++ [Event.handlerCall])
             ++ [Event.errPage]) := by
    simp only [Engine.request_handler, hmatch, hrh, hhandler, Engine.errorTail,
               HttpError.mk, herr, hdbg, Option.getD, Bool.false_eq_true,
               if_false]
  have hfinal : eng.handleRequest env =
      .ok (⟨500, [], .chunks [httpErrorPageContent]⟩,
           (List.replicate eng.pre.length Event.preHook ++ [Event.handlerCall])
             ++ [Event.errPage]) := by
    simp only [Engine.handleRequest, hreq, Engine.make_output]
    rw [if_neg hne]
    simp [HttpError.mk, httpErrorPageContent]
  rw [hfinal]
  rfl

/-- Witness for C5: the faulty error page is downgraded to the generic
content with a forced 500 status, without crashing request handling. -/
theorem C5_error_page_failure_contained_witness :
    resultResponse (c5Engine.handleRequest c3Env) =
      some ⟨500, [], .chunks [httpErrorPageContent]⟩ :=
  C5_error_page_failure_contained c5Engine c3Env c5Rule 418 "teapot"
    (match_found _ _ _ [c5Rule] c5Rule rfl rfl) rfl (by decide) rfl rfl

/-! ## Claim C6 -/

/-- Claim C6, code-bug evidence.  At finalization, a response with no
explicit `Content-Type` header gets the configured default value injected
under the misspelled name `"Context-Type"` (the typo is verbatim in the
source), so the flattened field list handed to the transport contains no
`Content-Type` header at all; when a `Content-Type` header was set, no
default is injected. -/
theorem C6_context_type_typo :
    HttpResponse.fresh.header_fields = [("Context-Type", default_content_type)]
    ∧ (∀ p ∈ HttpResponse.fresh.header_fields, p.1 ≠ "Content-Type")
    ∧ (HttpResponse.fresh.set_header "Content-Type" "text/plain").header_fields =
        [("Content-Type", "text/plain")] := by
  decide

/-! ## Claim C7 -/

/-- Claim C7, confirmed at the finalization boundary `_make_output` (the
code the claim cites): for a `HEAD` request, whatever non-empty buffer
the handler or error path produced, and with the response status left at
its default 200, the finalized response keeps status 200 and carries a
single empty chunk as body. -/
theorem C7_head_body_forced_empty (env : Environ) (resp : HttpResponse) (buf : String)
    (hmeth : HttpRequest.methodVal env = "HEAD")
    (hstatus : resp.status = 200)
    (hbuf : buf ≠ "") :
    Engine.make_output env buf resp = ⟨200, resp.headers, .chunks [""]⟩ := by
  cases resp with
  | mk st hd bd =>
    simp only at hstatus
    subst hstatus
    simp [Engine.make_output, hmeth]

/-- Witness for C7: a concrete `HEAD` request whose handler produced the
non-empty buffer `"hello"` is finalized to an empty single-chunk body
with status 200. -/
theorem C7_head_body_forced_empty_witness :
    Engine.make_output { strs := [("REQUEST_METHOD", "HEAD")] } "hello" HttpResponse.fresh =
      ⟨200, HttpResponse.fresh.headers, .chunks [""]⟩ :=
  C7_head_body_forced_empty { strs := [("REQUEST_METHOD", "HEAD")] }
    HttpResponse.fresh "hello" rfl rfl (by decide)

/-! ## Claim C8 -/

/-- Claim C8, counterexample.  On a request with an empty body the memo
guard `if self._data:` treats the cached `""` as unset, so the second
access of `data` recomputes and invokes `read()` on the stream again:
the body bytes are *not* read at most once and the result is not
memoized for the lifetime of the request. -/
theorem C8_read_at_most_once_counterexample :
    c8TotalReads = 2 ∧ ¬ c8TotalReads ≤ 1 := by decide

/-- Claim C8 as amended.  Reading the body twice returns the identical
value, and the second access never advances the stream; when the first
value is non-empty it is memoized, so the second access performs no
`read()` at all.  (What the counterexample forces to be dropped: for an
empty body the truthiness-based memo check re-runs the computation and
re-invokes `read()`, though the re-read consumes nothing and returns the
same `""` again.) -/
theorem C8_data_idempotent_amended (req : HttpRequestSt)
    (v1 v2 : String) (r1 r2 : HttpRequestSt) (n1 n2 : Nat)
    (hfresh : req.cache = none)
    (h1 : HttpRequest.dataProperty req = .ok (v1, r1, n1))
    (h2 : HttpRequest.dataProperty r1 = .ok (v2, r2, n2)) :
    v1 = v2 ∧ streamPos r2 = streamPos r1 ∧ (v1 ≠ "" → n2 = 0) := by
  simp only [HttpRequest.dataProperty, hfresh] at h1
  rcases dataCompute_cases req v1 r1 n1 h1 with
    ⟨hinp, hv1, hr1, _⟩ | ⟨fp, m, cl, hcl, hinp, hm, hv1, hr1, _⟩
  · -- no `wsgi.input`: both accesses return "" and never read
    subst hr1 hv1
    simp only [HttpRequest.dataProperty, hfresh] at h2
    rcases dataCompute_cases _ v2 r2 n2 h2 with
      ⟨_, hv2, hr2, hn2⟩ | ⟨fp', _, _, _, hinp', _, _, _, _⟩
    · subst hv2 hr2 hn2
      exact ⟨rfl, rfl, fun hne => absurd rfl hne⟩
    · rw [hinp] at hinp'
      exact Option.noConfusion hinp'
  · -- one read happened; the chunk was cached
    subst hr1 hv1
    by_cases hc : (fp.read m).1 = ""
    · -- empty chunk: the cached "" is falsy, the second access recomputes
      rw [hc] at h2
      rcases dataCompute_cases _ v2 r2 n2 h2 with
        ⟨hinp', _, _, _⟩ | ⟨fp', m', cl', hcl', hinp', hm', hv2, hr2, _⟩
      · exact Option.noConfusion hinp'
      · have hfp : some ((fp.read m).2) = some fp' := hinp'
        have hfp' : fp' = (fp.read m).2 := (Option.some.inj hfp).symm
        have hclq : HttpRequest.get_header req.environ "content-length" =
            Except.ok cl' := hcl'
        rw [hcl] at hclq
        have hclcl : cl' = cl := (Except.ok.inj hclq).symm
        rw [hclcl, hm] at hm'
        have hmm : m' = m := (Option.some.inj hm').symm
        rw [hfp', hmm, read_empty_fix fp m hc] at hv2 hr2
        refine ⟨hv2.symm, ?_, fun hne => absurd hc hne⟩
        rw [hr2]
    · -- non-empty chunk: the cache short-circuits the second access
      simp only [HttpRequest.dataProperty, if_neg hc] at h2
      simp only [Except.ok.injEq, Prod.mk.injEq] at h2
      obtain ⟨hv2, hr2, hn2⟩ := h2
      exact ⟨hv2, by rw [← hr2], fun _ => hn2.symm⟩

/-- Witness for the amended C8 at a concrete non-empty body: both
accesses return `"abc"`, and the second access leaves the stream where
the first left it and performs no read. -/
theorem C8_data_idempotent_amended_witness :
    "abc" = "abc" ∧ streamPos c8wAfter = streamPos c8wAfter
    ∧ ("abc" ≠ "" → 0 = 0) :=
  C8_data_idempotent_amended c8wRequest "abc" "abc" c8wAfter c8wAfter 1 0
    rfl rfl rfl

/-! ## Claim C10 -/

/-- Claim C10, confirmed.  For every request environ and every header
name, `HttpRequest.has_header` raises `NameError`: its body tests
membership in `environ.keys()` for the bare name `environ`, which is
bound neither in the module globals nor in the builtins, so no Boolean
is ever returned — even when the header is present. -/
theorem C10_has_header_raises_nameerror (env : Environ) (request_header : String) :
    HttpRequest.has_header env request_header = .error .nameError := by
  simp [HttpRequest.has_header, vanillaModuleGlobals]

end Vanilla
